import Mathlib

set_option linter.unusedVariables false
set_option maxRecDepth 100000

/-!
Verification of the SMS list-assistant repository: a shallow embedding of
`src/main.py`, `src/agents/grocery.py`, `src/agents/movie.py`,
`src/agents/tv.py`, `src/agents/restaurant.py` and `src/embeddings.py`,
together with theorems settling the specification claims.

Python string operations (`strip`, `lower`, `split`, substring `in`,
`split(sep, 1)`) are modelled on `List Char` with `String` wrappers, so every
definition is executable and kernel-reducible.  The Supabase store is modelled
as a `List Row` plus an explicit trace of store/provider effects, so theorems
can speak about which calls reach the store.  Store and model-provider
failures are injected through explicit parameters (`storeErr`, embedding
oracles), mirroring where the Python code has, or lacks, `try/except`.
-/

namespace ListApp

/-- Python whitespace characters recognised by `str.strip()` (ASCII range). -/
def isPySpace (c : Char) : Bool :=
  c == ' ' || c == '\t' || c == '\n' || c == '\r' || c == '\x0b' || c == '\x0c'

/-- `str.strip()` on a list of characters. -/
def stripL (l : List Char) : List Char :=
  ((l.dropWhile isPySpace).reverse.dropWhile isPySpace).reverse

/-- `str.strip()`. -/
def pyStrip (s : String) : String := String.mk (stripL s.toList)

/-- `str.lower()` (ASCII; all texts in the claims are ASCII). -/
def pyLower (s : String) : String := String.mk (s.toList.map Char.toLower)

/-- Whether `p` is a leading segment of `l` (used for substring search). -/
def isPrefixL : List Char → List Char → Bool
  | [], _ => true
  | _ :: _, [] => false
  | p :: ps, c :: cs => p == c && isPrefixL ps cs

/-- Python `sub in s` on lists of characters. -/
def containsL (sub : List Char) : List Char → Bool
  | [] => isPrefixL sub []
  | c :: cs => isPrefixL sub (c :: cs) || containsL sub cs

/-- Python `sub in s`. -/
def strContains (s sub : String) : Bool := containsL sub.toList s.toList

/-- Locate the first occurrence of `sep` in `l`: the part before it and the
part after it, or `none` when `sep` does not occur. -/
def splitFirstL (sep : List Char) : List Char → Option (List Char × List Char)
  | [] => if sep.isEmpty then some ([], []) else none
  | c :: cs =>
    if isPrefixL sep (c :: cs) then some ([], (c :: cs).drop sep.length)
    else
      match splitFirstL sep cs with
      | some (pre, post) => some (c :: pre, post)
      | none => none

/-- Python `s.split(sep, 1)[1]`: the text after the first occurrence of `sep`.
Callers in the source always guard with `sep in s` first. -/
def pySplitAfter (s sep : String) : String :=
  match splitFirstL sep.toList s.toList with
  | some p => String.mk p.2
  | none => ""

/-- Python `s.split(sep, 1)` as a pair (before, after first occurrence). -/
def pySplit1 (s sep : String) : String × String :=
  match splitFirstL sep.toList s.toList with
  | some p => (String.mk p.1, String.mk p.2)
  | none => (s, "")

/-- Python `s.split(sep)`, fuelled version (fuel bounds the number of
separator occurrences; `l.length` always suffices for non-empty `sep`). -/
def splitSepGo (sep : List Char) : Nat → List Char → List (List Char)
  | 0, l => [l]
  | fuel + 1, l =>
    match splitFirstL sep l with
    | none => [l]
    | some (pre, post) => pre :: splitSepGo sep fuel post

/-- Python `s.split(sep)` for non-empty `sep` on lists of characters. -/
def splitSepL (sep l : List Char) : List (List Char) :=
  if sep.isEmpty then [l] else splitSepGo sep l.length l

/-- Python `s.split(sep)` for non-empty `sep`. -/
def pySplitOn (s sep : String) : List String :=
  (splitSepL sep.toList s.toList).map String.mk

/-- SQL LIKE pattern matching (`%` = any sequence, `_` = any single char),
fuelled so that it is structural; `likeMatch` supplies adequate fuel. -/
def likeMatchGo : Nat → List Char → List Char → Bool
  | 0, _, _ => false
  | fuel + 1, ps, s =>
    match ps, s with
    | [], [] => true
    | [], _ :: _ => false
    | '%' :: ps', [] => likeMatchGo fuel ps' []
    | '%' :: ps', c :: cs =>
      likeMatchGo fuel ps' (c :: cs) || likeMatchGo fuel ('%' :: ps') cs
    | '_' :: _, [] => false
    | '_' :: ps', _ :: cs => likeMatchGo fuel ps' cs
    | p :: _, [] => (p == '%') && false
    | p :: ps', c :: cs => p == c && likeMatchGo fuel ps' cs

/-- SQL LIKE pattern matching of pattern `p` against string `s`. -/
def likeMatch (p s : List Char) : Bool :=
  likeMatchGo (p.length + s.length + 1) p s

/-- PostgREST `.ilike(column, pattern)`: case-insensitive LIKE. -/
def pyIlike (pat text : String) : Bool :=
  likeMatch (pyLower pat).toList (pyLower text).toList

/-! ## Data model

A row of the Supabase `items` table, with the columns the source reads and
writes (`id` is store-assigned and never consulted by the core, so it is
omitted). -/

structure Row where
  user_id : String
  category : String
  subcategory : Option String
  name : String
  notes : Option String
  timestamp : String
deriving Repr, DecidableEq

/-- Store and model-provider calls observable in a handler run.  Theorems use
this trace to state which calls reach the store (e.g. that a delete is or is
not issued). -/
inductive Eff where
  | selectCat (category : String)
  | selectIlikeName (category pat : String)
  | selectIlikeNotes (category pat : String)
  | deleteCat (category : String)
  | deleteCatName (category name : String)
  | deleteCatIlikeName (category pat : String)
  | insert (row : Row)
  | rpcMatchRestaurants (match_count : Nat)
  | embedCall (attempt : Nat)
  | sleep (seconds : Nat)
  | chatCompletion
deriving Repr, DecidableEq

/-! ## Grocery handler — `src/agents/grocery.py`

Store calls in this handler have no `try/except` in the source, so a store
failure (`storeErr = some e`) propagates as `Except.error e`. -/

/-- Lines of the grocery list reply: index, name, then the owning user id. -/
def numberedNamesUsers : Nat → List Row → List String
  | _, [] => []
  | i, r :: rs =>
    (s!"{i}. " ++ r.name ++ " (User: " ++ r.user_id ++ ")")
      :: numberedNamesUsers (i + 1) rs

/-- Lines of the movie/tv/restaurant list replies: index then name. -/
def numberedNames : Nat → List Row → List String
  | _, [] => []
  | i, r :: rs => (s!"{i}. " ++ r.name) :: numberedNames (i + 1) rs

/-- Fallback help message of the grocery handler. -/
def groceryHelp : String :=
  "Not sure what you want to do with groceries.\n"
    ++ "You can say:\n"
    ++ "  \u0027list groceries\u0027 (to list everything for all users),\n"
    ++ "  \u0027remove grocery\u0027 (to remove all grocery items),\n"
    ++ "  or \u0027remove grocery [item]\u0027 (to remove a single item)."

/-- `handle_grocery_request(body_text, user_id, supabase)`.  Note the source
filters on the capitalised category string `"Grocery"` (`.eq("category",
"Grocery")`), and its remove-by-name path does an exact `.eq("name", ...)`
match and reports success unconditionally. -/
def handle_grocery_request (body_text user_id : String) (db : List Row)
    (storeErr : Option String) : Except String (String × List Row × List Eff) :=
  let lower_text := pyLower body_text
  if strContains lower_text "list" then
    match storeErr with
    | some e => .error e
    | none =>
      let items := db.filter (fun r => r.category == "Grocery")
      if items.isEmpty then
        .ok ("No grocery items found for anyone.", db, [Eff.selectCat "Grocery"])
      else
        .ok (String.intercalate "\n"
              ("All grocery items (all users):" :: numberedNamesUsers 1 items),
            db, [Eff.selectCat "Grocery"])
  else if strContains lower_text "remove grocery" then
    let remainder := pyStrip (pySplitAfter lower_text "remove grocery")
    match storeErr with
    | some e => .error e
    | none =>
      if remainder == "" then
        .ok ("All grocery items removed for all users!",
            db.filter (fun r => !(r.category == "Grocery")),
            [Eff.deleteCat "Grocery"])
      else
        .ok (s!"Removed grocery item: {remainder}",
            db.filter (fun r => !(r.category == "Grocery" && r.name == remainder)),
            [Eff.deleteCatName "Grocery" remainder])
  else
    .ok (groceryHelp, db, [])

/-! ## Movie handler — `src/agents/movie.py`

The recommend branch runs `re.search(r"recommend me a?n?\s+(.*?)\s+movie",
lower_text)`.  The matcher below implements exactly this pattern with Python
semantics: leftmost starting position, greedy `a?`, `n?` and `\s+`
(alternatives tried longest-first), lazy capture `(.*?)` (shortest-first)
whose `.` does not match a newline. -/

/-- The literal tail `movie` of the pattern. -/
def mvLit : List Char := ['m', 'o', 'v', 'i', 'e']

/-- After at least one whitespace character has been consumed: match the rest
of `\s+movie` (more whitespace, or the literal). -/
def tailMatchesAux : List Char → Bool
  | [] => false
  | c :: cs => isPrefixL mvLit (c :: cs) || (isPySpace c && tailMatchesAux cs)

/-- Match `\s+movie` at the front of `l` (rest of the string unconstrained). -/
def tailMatches : List Char → Bool
  | [] => false
  | c :: cs => isPySpace c && tailMatchesAux cs

/-- Lazy capture `(.*?)`: extend the capture one character at a time (never
across a newline) until `\s+movie` matches at the current point. -/
def findCapture (acc : List Char) : List Char → Option String
  | [] => if tailMatches [] then some (String.mk acc.reverse) else none
  | c :: cs =>
    if tailMatches (c :: cs) then some (String.mk acc.reverse)
    else if c == '\n' then none
    else findCapture (c :: acc) cs

/-- Length of the maximal whitespace run at the front of `l`. -/
def wsRunLen : List Char → Nat
  | [] => 0
  | c :: cs => if isPySpace c then wsRunLen cs + 1 else 0

/-- Greedy `\s+`: try consuming `k` whitespace characters, longest first, then
run the lazy capture. -/
def tryWs (l : List Char) : Nat → Option String
  | 0 => none
  | k + 1 =>
    match findCapture [] (l.drop (k + 1)) with
    | some cap => some cap
    | none => tryWs l k

/-- The `\s+(.*?)\s+movie` part of the pattern at the front of `l`. -/
def wsStage (l : List Char) : Option String :=
  tryWs l (wsRunLen l)

/-- Greedy `a?n?` then `\s+(.*?)\s+movie`: alternatives `an`, `a`, `n`, empty
tried in Python backtracking order. -/
def tryOpt (l : List Char) : Option String :=
  (if isPrefixL ['a', 'n'] l then wsStage (l.drop 2) else none)
    <|> (if isPrefixL ['a'] l then wsStage (l.drop 1) else none)
    <|> (if isPrefixL ['n'] l then wsStage (l.drop 1) else none)
    <|> wsStage l

/-- The literal head `recommend me ` of the pattern. -/
def recLit : List Char := "recommend me ".toList

/-- `re.search(r"recommend me a?n?\s+(.*?)\s+movie", text)`: group 1 of the
leftmost match, or `none`. -/
def movieRecommendGenre : List Char → Option String
  | [] => none
  | c :: cs =>
    match (if isPrefixL recLit (c :: cs) then tryOpt ((c :: cs).drop recLit.length)
           else none) with
    | some g => some g
    | none => movieRecommendGenre cs

/-- Fallback help message of the movie handler. -/
def movieHelp : String :=
  "Not sure what you want to do with movies.\n"
    ++ "Try:\n"
    ++ "  \u0027list movies\u0027 (to list everything),\n"
    ++ "  \u0027remove movie\u0027 (remove all),\n"
    ++ "  \u0027remove movie [title]\u0027 (remove one),\n"
    ++ "  \u0027recommend me an action movie\u0027 (recommendation)."

/-- `handle_movie_request(body_text, user_id, supabase)`.  Remove-by-name here
first selects the case-insensitive (`ilike`) matches and only deletes (again
via `ilike`) when at least one row matched; otherwise it reports no match and
issues no delete.  A null `notes` column never matches an `ilike` filter. -/
def handle_movie_request (body_text user_id : String) (db : List Row) :
    String × List Row × List Eff :=
  let lower_text := pyLower body_text
  if strContains lower_text "list movies" then
    let items := db.filter (fun r => r.category == "movie")
    (if items.isEmpty then "No movies found."
     else String.intercalate "\n" ("All movies:" :: numberedNames 1 items),
     db, [Eff.selectCat "movie"])
  else if strContains lower_text "remove movie" then
    let remainder := pyStrip (pySplitAfter lower_text "remove movie")
    if remainder == "" then
      ("All movies removed!",
       db.filter (fun r => !(r.category == "movie")),
       [Eff.deleteCat "movie"])
    else
      let matching := db.filter (fun r => r.category == "movie" && pyIlike remainder r.name)
      if !matching.isEmpty then
        (s!"Removed movie: {remainder}",
         db.filter (fun r => !(r.category == "movie" && pyIlike remainder r.name)),
         [Eff.selectIlikeName "movie" remainder, Eff.deleteCatIlikeName "movie" remainder])
      else
        (s!"No movie found matching: {remainder}",
         db, [Eff.selectIlikeName "movie" remainder])
  else
    match movieRecommendGenre lower_text.toList with
    | some g =>
      let genre := pyStrip g
      let pat := "%" ++ genre ++ "%"
      let items := db.filter (fun r =>
        r.category == "movie"
          && (match r.notes with
              | some s => pyIlike pat s
              | none => false))
      (if items.isEmpty then s!"No recommendations found for {genre} movies."
       else String.intercalate "\n"
              (s!"Recommended {genre} movie(s):" :: numberedNames 1 items),
       db, [Eff.selectIlikeNotes "movie" pat])
    | none => (movieHelp, db, [])

/-! ## TV handler — `src/agents/tv.py` -/

/-- Static recommendation list of the tv handler. -/
def tvRecs : String :=
  "Here are a few TV recommendations:\n"
    ++ "- Breaking Bad\n"
    ++ "- The Office\n"
    ++ "- Stranger Things\n"

/-- Fallback help message of the tv handler. -/
def tvHelp : String :=
  "Not sure what you want to do with TV.\n"
    ++ "You can say:\n"
    ++ "  \u0027list tv shows\u0027 (to list everything),\n"
    ++ "  \u0027remove tv\u0027 (remove all TV items),\n"
    ++ "  \u0027remove tv [show]\u0027 (remove a single item), or\n"
    ++ "  \u0027recommend tv\u0027 for recommendations."

/-- `handle_tv_request(body_text, user_id, supabase)`.  Remove-by-name here is
an exact `.eq("name", ...)` delete with an unconditional success reply. -/
def handle_tv_request (body_text user_id : String) (db : List Row) :
    String × List Row × List Eff :=
  let lower_text := pyLower body_text
  if strContains lower_text "list tv" || strContains lower_text "list tv shows" then
    let items := db.filter (fun r => r.category == "tv")
    (if items.isEmpty then "No TV items found."
     else String.intercalate "\n" ("All TV items:" :: numberedNames 1 items),
     db, [Eff.selectCat "tv"])
  else if strContains lower_text "remove tv" then
    let remainder := pyStrip (pySplitAfter lower_text "remove tv")
    if remainder == "" then
      ("All TV items removed!",
       db.filter (fun r => !(r.category == "tv")),
       [Eff.deleteCat "tv"])
    else
      (s!"Removed TV item: {remainder}",
       db.filter (fun r => !(r.category == "tv" && r.name == remainder)),
       [Eff.deleteCatName "tv" remainder])
  else if strContains lower_text "recommend tv" then
    (tvRecs, db, [])
  else
    (tvHelp, db, [])

/-! ## Embedding generation — `generate_embedding` in `src/agents/restaurant.py`
(the copy in `src/embeddings.py` is identical)

The provider is an oracle from attempt number to either an embedding vector or
an exception message.  Vector components are opaque to the code (only the
length is inspected), so they are modelled as `Int`.  The whole loop body,
including the dimension check, sits inside the `try`, and the `except` retries
(after `time.sleep(1)`) unless the failing attempt is the last one, in which
case the caught exception is re-raised.  When `max_retries = 0` the Python
function falls off the loop and returns `None`, hence the `Option` result. -/

/-- Error message of the `ValueError` raised on a dimension mismatch. -/
def dimErrMsg (n : Nat) : String :=
  s!"Expected 1536-dimensional embedding, got {n}"

/-- The retry loop of `generate_embedding`, by remaining iterations `r`; the
current attempt index is `max_retries - r`.  Returns the result together with
the trace of provider calls and sleeps. -/
def genEmbedFrom (oracle : Nat → Except String (List Int)) (max_retries : Nat) :
    Nat → Except String (Option (List Int)) × List Eff
  | 0 => (.ok none, [])
  | r + 1 =>
    let attempt := max_retries - (r + 1)
    match oracle attempt with
    | .ok embedding =>
      if embedding.length ≠ 1536 then
        if attempt == max_retries - 1 then
          (.error (dimErrMsg embedding.length), [Eff.embedCall attempt])
        else
          let rest := genEmbedFrom oracle max_retries r
          (rest.1, Eff.embedCall attempt :: Eff.sleep 1 :: rest.2)
      else
        (.ok (some embedding), [Eff.embedCall attempt])
    | .error e =>
      if attempt == max_retries - 1 then
        (.error e, [Eff.embedCall attempt])
      else
        let rest := genEmbedFrom oracle max_retries r
        (rest.1, Eff.embedCall attempt :: Eff.sleep 1 :: rest.2)

/-- `generate_embedding(text, max_retries)` with the provider abstracted as
`oracle` (the `text` argument only flows into the provider call, so it is
absorbed into the oracle). -/
def generate_embedding (oracle : Nat → Except String (List Int))
    (max_retries : Nat := 3) : Except String (Option (List Int)) × List Eff :=
  genEmbedFrom oracle max_retries max_retries

/-- Vector with a wrong dimension, used as a concrete provider response. -/
def shortVec : List Int := [0, 0]

/-- Vector with the expected 1536 components, used as a concrete provider
response. -/
def goodVec : List Int := List.replicate 1536 0

/-! ## Restaurant handler — `src/agents/restaurant.py`

The vector-search RPC and the chat completion are abstracted as `rpcResult`
and `chatResult`; the handler consults them only if control reaches the
corresponding step, and every trace records which external calls were made. -/

/-- `notes = row["notes"] or "No notes available"`: Python `or` replaces both
`None` and the empty string. -/
def notesOrPlaceholder (notes : Option String) : String :=
  match notes with
  | some s => if s == "" then "No notes available" else s
  | none => "No notes available"

/-- Context lines `f"{i}) {nm}: {notes}"` of the RAG prompt. -/
def contextLines : Nat → List Row → List String
  | _, [] => []
  | i, r :: rs =>
    (s!"{i}) " ++ r.name ++ ": " ++ notesOrPlaceholder r.notes)
      :: contextLines (i + 1) rs

/-- Fallback help message of the restaurant handler. -/
def restaurantHelp : String :=
  "Not sure what you want to do with restaurants.\n"
    ++ "You can say:\n"
    ++ "  \u0027list restaurants\u0027 (to list everything),\n"
    ++ "  \u0027remove restaurant\u0027 (remove all items),\n"
    ++ "  \u0027remove restaurant [item]\u0027 (remove a single item),\n"
    ++ "  or \u0027recommend a fancy place\u0027 for an embedding-based recommendation."

/-- `handle_restaurant_request(body_text, user_id, supabase)`. -/
def handle_restaurant_request (body_text user_id : String) (db : List Row)
    (oracle : Nat → Except String (List Int))
    (rpcResult : Except String (List Row))
    (chatResult : Except String String) : String × List Row × List Eff :=
  let lower_text := pyLower body_text
  if strContains lower_text "list" then
    let items := db.filter (fun r => r.category == "restaurant")
    (if items.isEmpty then "No restaurant items found."
     else String.intercalate "\n" ("All restaurant items:" :: numberedNames 1 items),
     db, [Eff.selectCat "restaurant"])
  else if strContains lower_text "remove restaurant" then
    let remainder := pyStrip (pySplitAfter lower_text "remove restaurant")
    if remainder == "" then
      ("All restaurant items removed!",
       db.filter (fun r => !(r.category == "restaurant")),
       [Eff.deleteCat "restaurant"])
    else
      (s!"Removed restaurant item: {remainder}",
       db.filter (fun r => !(r.category == "restaurant" && r.name == remainder)),
       [Eff.deleteCatName "restaurant" remainder])
  else if strContains lower_text "recommend" then
    let user_query := body_text
    match generate_embedding oracle 3 with
    | (.error e, tr) =>
      (s!"Error generating embedding for query: {e}", db, tr)
    | (.ok _, tr) =>
      match rpcResult with
      | .error e =>
        (s!"Error performing vector search: {e}", db, tr ++ [Eff.rpcMatchRestaurants 3])
      | .ok [] =>
        ("No relevant restaurants found via vector search.",
         db, tr ++ [Eff.rpcMatchRestaurants 3])
      | .ok top_rows =>
        let prompt_for_llm :=
          "User Query: " ++ user_query ++ "\n\n"
            ++ "Here are the top matching restaurants:\n"
            ++ String.intercalate "\n" (contextLines 1 top_rows)
            ++ "\n\nPlease provide a short recommendation that best fits the user\u0027s request."
        match chatResult with
        | .error e =>
          (s!"Error calling LLM for final recommendation: {e}",
           db, tr ++ [Eff.rpcMatchRestaurants 3, Eff.chatCompletion])
        | .ok content =>
          (pyStrip content, db, tr ++ [Eff.rpcMatchRestaurants 3, Eff.chatCompletion])
  else
    (restaurantHelp, db, [])

/-! ## Dispatcher — `src/main.py`

`_twilio_response(message, is_error)` always produces an HTTP 200 TwiML
response; a reply is modelled as the pair (message, is_error).  An uncaught
Python exception escaping `receive_sms` (there is no `try/except` around
`handle_request`) is modelled as `Except.error`: it reaches the transport as a
fault, not as a TwiML reply. -/

/-- A TwiML reply: the message text and the `is_error` flag passed to
`_twilio_response`. -/
abbrev Reply := String × Bool

/-- `is_data_entry_format(body_text)`: at least two newline-separated lines
after stripping. -/
def is_data_entry_format (body_text : String) : Bool :=
  decide (2 ≤ (pySplitOn (pyStrip body_text) "\n").length)

/-- `lines = body_text.strip().split("\n")` in `store_data_entry`. -/
def entryLines (body_text : String) : List String :=
  pySplitOn (pyStrip body_text) "\n"

/-- `line1 = lines[0].strip()` (the caller guarantees at least two lines). -/
def entryLine1 (body_text : String) : String :=
  pyStrip ((entryLines body_text).getD 0 "")

/-- `line2 = lines[1].strip()` (the caller guarantees at least two lines). -/
def entryLine2 (body_text : String) : String :=
  pyStrip ((entryLines body_text).getD 1 "")

/-- The `category` computed by `store_data_entry`: if line 1 contains a comma,
the part before the first comma, stripped and lowercased; otherwise all of
line 1, lowercased. -/
def parsedCategory (body_text : String) : String :=
  let line1 := entryLine1 body_text
  if strContains line1 "," then pyLower (pyStrip (pySplit1 line1 ",").1)
  else pyLower line1

/-- The `subcategory` computed by `store_data_entry`: the part after the first
comma of line 1, stripped and lowercased, and `None` when that is empty or
line 1 has no comma. -/
def parsedSubcategory (body_text : String) : Option String :=
  let line1 := entryLine1 body_text
  if strContains line1 "," then
    let subcategory_raw := pyLower (pyStrip (pySplit1 line1 ",").2)
    if subcategory_raw == "" then none else some subcategory_raw
  else none

/-- The `name` computed by `store_data_entry`: line 2 stripped and
lowercased. -/
def parsedName (body_text : String) : String :=
  pyLower (pyStrip (entryLine2 body_text))

/-- `store_data_entry(from_number, body_text)`: parse the two-line entry,
validate, and insert.  The insert is wrapped in `try/except`, so a store
failure becomes an `Unexpected error` reply rather than a fault; `now` stands
for `datetime.datetime.utcnow().isoformat()`. -/
def store_data_entry (from_number body_text : String) (db : List Row)
    (storeErr : Option String) (now : String) : Reply × List Row × List Eff :=
  let category := parsedCategory body_text
  let subcategory := parsedSubcategory body_text
  let name := parsedName body_text
  if category == "" || name == "" then
    (("Error: Missing category or name.", true), db, [])
  else
    let row : Row :=
      { user_id := from_number, category := category, subcategory := subcategory,
        name := name, notes := none, timestamp := now }
    match storeErr with
    | some e => ((s!"Unexpected error: {e}", true), db, [])
    | none => (("Stored!", false), db ++ [row], [Eff.insert row])

/-- Generic help message of `handle_request` for messages with no recognised
category keyword (the odd characters around the apostrophe reproduce the
mojibake present in the source file byte for byte). -/
def unknownHelp : String :=
  "Sorry, Iâ€™m not sure what you need.\n"
    ++ "Try sending:\n"
    ++ "  Grocery\n"
    ++ "  Bananas\n\n"
    ++ "OR\n"
    ++ "  Remove grocery bananas\n"
    ++ "to remove an item."

/-- `handle_request(from_number, body_text)`: the only keyword the dispatcher
checks is `"grocery"`; every other message gets the generic help reply.  The
grocery handler's store calls may raise, and nothing here catches them. -/
def handle_request (from_number body_text : String) (db : List Row)
    (storeErr : Option String) : Except String (String × List Row × List Eff) :=
  let text_lower := pyLower body_text
  if strContains text_lower "grocery" then
    handle_grocery_request body_text from_number db storeErr
  else
    .ok (unknownHelp, db, [])

/-- The `/sms` endpoint `receive_sms`: validate the form fields, classify, and
either store the entry or route the command.  `Except.error` is an uncaught
exception reaching the transport. -/
def receive_sms (from_number body_text : String) (db : List Row)
    (storeErr : Option String) (now : String) :
    Except String (Reply × List Row × List Eff) :=
  if from_number == "" || body_text == "" then
    .ok (("Error: Missing phone number or message body.", true), db, [])
  else if is_data_entry_format body_text then
    .ok (store_data_entry from_number body_text db storeErr now)
  else
    match handle_request from_number body_text db storeErr with
    | .ok (answer, db2, effs) => .ok ((answer, false), db2, effs)
    | .error e => .error e

/-! ## Lemmas about the string primitives -/

theorem isPrefixL_iff (p l : List Char) :
    isPrefixL p l = true ↔ ∃ t, l = p ++ t := by
  induction p generalizing l with
  | nil => simp [isPrefixL]
  | cons x xs ih =>
    cases l with
    | nil => simp [isPrefixL]
    | cons c cs =>
      simp only [isPrefixL, Bool.and_eq_true, beq_iff_eq, ih]
      constructor
      · rintro ⟨rfl, t, rfl⟩
        exact ⟨t, rfl⟩
      · rintro ⟨t, h⟩
        injection h with h1 h2
        exact ⟨h1.symm, t, h2⟩

theorem containsL_iff (sub l : List Char) :
    containsL sub l = true ↔ ∃ pre post, l = pre ++ sub ++ post := by
  induction l with
  | nil =>
    simp only [containsL, isPrefixL_iff]
    constructor
    · rintro ⟨t, h⟩
      exact ⟨[], t, h⟩
    · rintro ⟨pre, post, h⟩
      rcases List.append_eq_nil.mp (List.append_eq_nil.mp h.symm).1 with ⟨h1, h2⟩
      exact ⟨post, by simp [h2, (List.append_eq_nil.mp h.symm).2]⟩
  | cons c cs ih =>
    simp only [containsL, Bool.or_eq_true, isPrefixL_iff, ih]
    constructor
    · rintro (⟨t, h⟩ | ⟨pre, post, h⟩)
      · exact ⟨[], t, by simp [h]⟩
      · exact ⟨c :: pre, post, by simp [h]⟩
    · rintro ⟨pre, post, h⟩
      cases pre with
      | nil => exact Or.inl ⟨post, by simpa using h⟩
      | cons p ps =>
        injection h with h1 h2
        exact Or.inr ⟨ps, post, h2⟩

theorem containsL_eq_isSome (sub l : List Char) :
    containsL sub l = (splitFirstL sub l).isSome := by
  induction l with
  | nil => cases sub <;> simp [containsL, isPrefixL, splitFirstL, List.isEmpty]
  | cons c cs ih =>
    simp only [containsL, splitFirstL]
    cases h : isPrefixL sub (c :: cs) with
    | true => simp [h]
    | false =>
      rw [if_neg (by simp)]
      simp only [Bool.false_or, ih]
      cases splitFirstL sub cs <;> simp

theorem splitSepGo_length_pos (sep : List Char) (fuel : Nat) (l : List Char) :
    1 ≤ (splitSepGo sep fuel l).length := by
  cases fuel with
  | zero => simp [splitSepGo]
  | succ n =>
    simp only [splitSepGo]
    cases splitFirstL sep l <;> simp

theorem splitSepL_two_le (sep l : List Char) (hsep : ¬sep.isEmpty) :
    2 ≤ (splitSepL sep l).length ↔ (splitFirstL sep l).isSome = true := by
  simp only [splitSepL, if_neg hsep]
  cases l with
  | nil =>
    cases sep with
    | nil => simp at hsep
    | cons s ss => simp [splitSepGo, splitFirstL]
  | cons c cs =>
    simp only [List.length_cons, splitSepGo]
    cases h : splitFirstL sep (c :: cs) with
    | none => simp
    | some p =>
      simp only [Option.isSome_some, iff_true, List.length_cons]
      have := splitSepGo_length_pos sep (cs.length) p.2
      omega

/-! ## Claim theorems -/

/-- C7: a message is classified as a data entry if and only if, after
stripping leading and trailing whitespace, it contains at least two
newline-separated lines — equivalently, the stripped text still contains a
newline character.  The characterisation as a decomposition
`pre ++ newline ++ post` shows the check is purely structural: no content
other than the presence of a newline is inspected. -/
theorem C7_data_entry_iff_two_lines (body_text : String) :
    is_data_entry_format body_text = true
      ↔ ∃ pre post : List Char, (pyStrip body_text).toList = pre ++ '\n' :: post := by
  have hsep : ¬(String.toList "\n").isEmpty := by decide
  have h1 : is_data_entry_format body_text = true
      ↔ 2 ≤ (splitSepL "\n".toList (pyStrip body_text).toList).length := by
    simp [is_data_entry_format, pySplitOn]
  rw [h1, splitSepL_two_le _ _ hsep, ← containsL_eq_isSome, containsL_iff]
  constructor
  · rintro ⟨pre, post, h⟩
    exact ⟨pre, post, by simpa using h⟩
  · rintro ⟨pre, post, h⟩
    exact ⟨pre, post, by simpa using h⟩

/-- C8: the entry parser splits line 1 on the first comma only (left part,
stripped and lowercased, is the category; right part, stripped and lowercased,
is the subcategory, which becomes `none` when empty), takes trimmed lowercased
line 2 as the name, and returns the validation-error reply exactly when the
category or the name is empty, inserting nothing; otherwise it inserts the row
with exactly those fields.  In particular `"Grocery, Produce\nBananas"` parses
to category `"grocery"`, subcategory `"produce"`, name `"bananas"`, and a
comma-bearing right part is kept whole (`"Movie, Action, Thriller"` gives
subcategory `"action, thriller"`). -/
theorem C8_entry_parser_fields :
    (∀ from_number body_text db now,
        store_data_entry from_number body_text db none now
          = if parsedCategory body_text == "" || parsedName body_text == "" then
              (("Error: Missing category or name.", true), db, [])
            else
              (("Stored!", false),
               db ++ [{ user_id := from_number, category := parsedCategory body_text,
                        subcategory := parsedSubcategory body_text,
                        name := parsedName body_text, notes := none, timestamp := now }],
               [Eff.insert { user_id := from_number, category := parsedCategory body_text,
                             subcategory := parsedSubcategory body_text,
                             name := parsedName body_text, notes := none, timestamp := now }]))
      ∧ parsedCategory "Grocery, Produce\nBananas" = "grocery"
      ∧ parsedSubcategory "Grocery, Produce\nBananas" = some "produce"
      ∧ parsedName "Grocery, Produce\nBananas" = "bananas"
      ∧ parsedCategory "Grocery\nBananas" = "grocery"
      ∧ parsedSubcategory "Grocery\nBananas" = none
      ∧ parsedSubcategory "Movie, Action, Thriller\nDie Hard" = some "action, thriller"
      ∧ parsedSubcategory "Grocery,   \nBananas" = none
      ∧ (store_data_entry "+15551234567" "Grocery\n   " [] none "t").1
          = ("Error: Missing category or name.", true)
      ∧ (store_data_entry "+15551234567" " , produce\nBananas" [] none "t").1
          = ("Error: Missing category or name.", true) := by
  refine ⟨fun from_number body_text db now => rfl, ?_, ?_, ?_, ?_, ?_, ?_, ?_, ?_, ?_⟩
    <;> decide

/-- C5 counterexample: for the data entry `"Grocery, Produce\nBananas"` the
success reply is the fixed string `"Stored!"`, which mentions neither the
stored category, nor the subcategory, nor the name — so the confirmation does
not echo the stored fields. -/
theorem C5_counterexample_no_echo :
    (store_data_entry "+15551234567" "Grocery, Produce\nBananas" [] none "t").1
        = ("Stored!", false)
      ∧ strContains "Stored!" "grocery" = false
      ∧ strContains "Stored!" "produce" = false
      ∧ strContains "Stored!" "bananas" = false := by decide

/-- C5 (amended): for every data-entry message that parses successfully and
whose store insert succeeds, the reply is the fixed confirmation
`("Stored!", is_error := false)`, independent of the stored fields. -/
theorem C5_fixed_confirmation (from_number body_text : String) (db : List Row)
    (now : String) (hc : parsedCategory body_text ≠ "")
    (hn : parsedName body_text ≠ "") :
    (store_data_entry from_number body_text db none now).1 = ("Stored!", false) := by
  have hcond : (parsedCategory body_text == "" || parsedName body_text == "") = false := by
    simp [hc, hn]
  simp [store_data_entry, hcond]

/-- C5 witness: the amended theorem applied to `"Grocery\nBananas"`. -/
theorem C5_fixed_confirmation_witness :
    parsedCategory "Grocery\nBananas" ≠ ""
      ∧ parsedName "Grocery\nBananas" ≠ ""
      ∧ (store_data_entry "+15551234567" "Grocery\nBananas" [] none "t").1
          = ("Stored!", false) :=
  ⟨by decide, by decide,
    C5_fixed_confirmation "+15551234567" "Grocery\nBananas" [] "t" (by decide) (by decide)⟩

/-- C2 (code bug): inserting the entry `"Grocery\nBananas"` stores the row
with category `"grocery"` (lowercased, as `store_data_entry` documents "for
consistent matching later"), but the grocery handler's list command filters on
the capitalised category `"Grocery"`, so the freshly stored item is not listed:
the reply is the empty-list message and does not contain the item's name. -/
theorem C2_insert_then_list_misses_item :
    (store_data_entry "+15551234567" "Grocery\nBananas" [] none "t").2.1
        = [{ user_id := "+15551234567", category := "grocery", subcategory := none,
             name := "bananas", notes := none, timestamp := "t" }]
      ∧ handle_grocery_request "grocery list" "+15551234567"
          [{ user_id := "+15551234567", category := "grocery", subcategory := none,
             name := "bananas", notes := none, timestamp := "t" }] none
        = .ok ("No grocery items found for anyone.",
               [{ user_id := "+15551234567", category := "grocery", subcategory := none,
                  name := "bananas", notes := none, timestamp := "t" }],
               [Eff.selectCat "Grocery"])
      ∧ strContains "No grocery items found for anyone." "bananas" = false :=
  ⟨by decide, by rfl, by decide⟩

/-- C3 counterexample: the body `"list movies"` contains the known category
keyword `movie`, yet the dispatcher returns the generic fallback help message
(and never reaches any movie handler), because `handle_request` only ever
checks for the keyword `grocery`. -/
theorem C3_counterexample_movie_keyword_falls_back :
    strContains (pyLower "list movies") "movie" = true
      ∧ handle_request "+15551234567" "list movies" [] none
          = .ok (unknownHelp, [], []) :=
  ⟨by decide, by rfl⟩

/-- C3 (amended): the dispatcher checks a single keyword, `grocery`, in the
lowercased body; it routes to the grocery handler when present and otherwise
returns the generic help reply without touching the store — even for bodies
containing the other category keywords (`tv`, `restaurant`, `movie`). -/
theorem C3_dispatch_only_grocery :
    (∀ from_number body_text db storeErr,
        handle_request from_number body_text db storeErr
          = if strContains (pyLower body_text) "grocery" then
              handle_grocery_request body_text from_number db storeErr
            else .ok (unknownHelp, db, []))
      ∧ handle_request "+1" "list tv shows" [] none = .ok (unknownHelp, [], [])
      ∧ handle_request "+1" "remove restaurant luigi" [] none = .ok (unknownHelp, [], [])
      ∧ handle_request "+1" "Grocery list" [] none
          = handle_grocery_request "Grocery list" "+1" [] none :=
  ⟨fun from_number body_text db storeErr => rfl, by rfl, by rfl, by rfl⟩

/-- C1 counterexample: on an empty store (so no item matches the name),
`remove tv bananas` issues a delete call to the store and replies with an
unconditional success message rather than a no-match message — refuting the
claim that remove-by-name in every handler checks for a case-insensitive match
and deletes nothing when none exists. -/
theorem C1_counterexample_tv_deletes_without_match :
    handle_tv_request "remove tv bananas" "+15551234567" []
        = ("Removed TV item: bananas", [], [Eff.deleteCatName "tv" "bananas"])
      ∧ Eff.deleteCatName "tv" "bananas"
          ∈ (handle_tv_request "remove tv bananas" "+15551234567" []).2.2 :=
  ⟨by rfl, by decide⟩

/-- C1 (amended): only the movie handler implements the check-then-delete
policy: it selects the case-insensitive (`ilike`) matches first, deletes all
of them and reports success when at least one exists, and otherwise reports
`No movie found matching` and issues no delete.  The tv and grocery handlers
instead always issue an exact-match delete on the lowercased remainder and
always report success, whether or not anything matched (grocery additionally
filters on the capitalised category `"Grocery"`). -/
theorem C1_remove_by_name_policies (db : List Row) (user_id : String) :
    handle_movie_request "remove movie inception" user_id db
        = (let matching := db.filter (fun r => r.category == "movie" && pyIlike "inception" r.name)
           if !matching.isEmpty then
             ("Removed movie: inception",
              db.filter (fun r => !(r.category == "movie" && pyIlike "inception" r.name)),
              [Eff.selectIlikeName "movie" "inception", Eff.deleteCatIlikeName "movie" "inception"])
           else
             ("No movie found matching: inception", db, [Eff.selectIlikeName "movie" "inception"]))
      ∧ handle_tv_request "remove tv inception" user_id db
          = ("Removed TV item: inception",
             db.filter (fun r => !(r.category == "tv" && r.name == "inception")),
             [Eff.deleteCatName "tv" "inception"])
      ∧ handle_grocery_request "remove grocery inception" user_id db none
          = .ok ("Removed grocery item: inception",
                 db.filter (fun r => !(r.category == "Grocery" && r.name == "inception")),
                 [Eff.deleteCatName "Grocery" "inception"]) :=
  ⟨rfl, rfl, rfl⟩

/-- C4 counterexample: a provider returning a 2-component embedding on attempt
0 and a 1536-component one on attempt 1 makes `generate_embedding` sleep and
retry after the dimension mismatch and then return successfully — the
dimension-validation failure is not raised immediately and is retried exactly
like a failed provider call. -/
theorem C4_counterexample_dim_mismatch_retried :
    generate_embedding (fun attempt => if attempt == 0 then .ok shortVec else .ok goodVec) 3
      = (.ok (some goodVec), [Eff.embedCall 0, Eff.sleep 1, Eff.embedCall 1]) := by rfl

/-- C4 (amended): a returned embedding whose length differs from 1536 raises a
`ValueError` inside the `try`, so it is handled exactly like a failed provider
call: on a non-final attempt the loop sleeps one second and retries (and a
later good vector is returned successfully), and only when the mismatch
happens on the final attempt is the dimension error raised. -/
theorem C4_dim_mismatch_retry_policy (v0 v1 v2 good : List Int)
    (h0 : v0.length ≠ 1536) (h1 : v1.length ≠ 1536) (h2 : v2.length ≠ 1536)
    (hg : good.length = 1536) :
    generate_embedding (fun attempt => if attempt == 0 then .ok v0 else .ok good) 3
        = (.ok (some good), [Eff.embedCall 0, Eff.sleep 1, Eff.embedCall 1])
      ∧ generate_embedding
          (fun attempt => if attempt == 0 then .ok v0 else if attempt == 1 then .ok v1 else .ok v2) 3
        = (.error (dimErrMsg v2.length),
           [Eff.embedCall 0, Eff.sleep 1, Eff.embedCall 1, Eff.sleep 1, Eff.embedCall 2]) := by
  constructor
  · simp [generate_embedding, genEmbedFrom, h0, hg]
  · simp [generate_embedding, genEmbedFrom, h0, h1, h2]

/-- C4 witness: the amended theorem applied to concrete vectors. -/
theorem C4_dim_mismatch_retry_policy_witness :
    shortVec.length ≠ 1536 ∧ goodVec.length = 1536
      ∧ generate_embedding (fun attempt => if attempt == 0 then .ok shortVec else .ok goodVec) 3
          = (.ok (some goodVec), [Eff.embedCall 0, Eff.sleep 1, Eff.embedCall 1]) :=
  ⟨by decide, by decide,
    (C4_dim_mismatch_retry_policy shortVec shortVec shortVec goodVec
      (by decide) (by decide) (by decide) (by decide)).1⟩

/-- C6 counterexample: a store failure during the grocery handler's list call
is not caught anywhere — `receive_sms` terminates with an uncaught exception
instead of a reply, refuting the claim that every error on every path is
converted to a user-facing reply string. -/
theorem C6_counterexample_uncaught_store_error :
    receive_sms "+15551234567" "grocery list" [] (some "connection refused") "t"
      = .error "connection refused" := by rfl

/-- C6 (amended): the missing-field validation and the data-entry insert path
do convert failures into reply strings, but the grocery handler's store calls
have no `try/except`, so a store failure on the command path propagates
uncaught to the transport: the system does not always reply with a message. -/
theorem C6_error_boundary (db : List Row) (e now : String) :
    receive_sms "" "grocery list" db (some e) now
        = .ok (("Error: Missing phone number or message body.", true), db, [])
      ∧ receive_sms "+15551234567" "Grocery\nBananas" db (some e) now
          = .ok ((s!"Unexpected error: {e}", true), db, [])
      ∧ receive_sms "+15551234567" "grocery list" db (some e) now = .error e :=
  ⟨rfl, rfl, rfl⟩

/-- C9: in the restaurant recommend flow, when the embedding provider fails on
all three attempts the reply is the embedding-error message carrying the last
attempt's error, the store is unchanged, and the trace shows exactly the three
provider calls separated by fixed 1-second sleeps — the vector-search RPC and
the chat completion (whatever results they would return) are never invoked. -/
theorem C9_embedding_failure_short_circuits (body_text user_id : String)
    (db : List Row) (e0 e1 e2 : String) (rpcResult : Except String (List Row))
    (chatResult : Except String String)
    (hlist : strContains (pyLower body_text) "list" = false)
    (hrem : strContains (pyLower body_text) "remove restaurant" = false)
    (hrec : strContains (pyLower body_text) "recommend" = true) :
    handle_restaurant_request body_text user_id db
        (fun attempt => .error (if attempt == 0 then e0 else if attempt == 1 then e1 else e2))
        rpcResult chatResult
      = (s!"Error generating embedding for query: {e2}", db,
         [Eff.embedCall 0, Eff.sleep 1, Eff.embedCall 1, Eff.sleep 1, Eff.embedCall 2]) := by
  simp [handle_restaurant_request, hlist, hrem, hrec, generate_embedding, genEmbedFrom]

/-- C9 witness: the theorem applied to `"recommend a fancy place"` with a
provider that always fails. -/
theorem C9_embedding_failure_witness :
    strContains (pyLower "recommend a fancy place") "list" = false
      ∧ strContains (pyLower "recommend a fancy place") "remove restaurant" = false
      ∧ strContains (pyLower "recommend a fancy place") "recommend" = true
      ∧ handle_restaurant_request "recommend a fancy place" "+15551234567" []
          (fun attempt => .error (if attempt == 0 then "boom0" else if attempt == 1 then "boom1" else "boom2"))
          (.ok []) (.ok "irrelevant")
        = (s!"Error generating embedding for query: boom2", [],
           [Eff.embedCall 0, Eff.sleep 1, Eff.embedCall 1, Eff.sleep 1, Eff.embedCall 2]) :=
  ⟨by decide, by decide, by decide,
    C9_embedding_failure_short_circuits "recommend a fancy place" "+15551234567" []
      "boom0" "boom1" "boom2" (.ok []) (.ok "irrelevant")
      (by decide) (by decide) (by decide)⟩

/-- C10: in the grocery and restaurant handlers the list check runs first and
matches the substring `list` anywhere in the message, so every command whose
lowercased body contains `list` (for example `remove grocery list`) is handled
as a list operation: the store contents are unchanged, the only store call is
a select, and no delete is ever issued — regardless of any remove phrase also
present, and (for the restaurant handler) without consulting the embedding or
chat providers. -/
theorem C10_list_check_runs_first (body_text user_id : String) (db : List Row)
    (oracle : Nat → Except String (List Int)) (rpcResult : Except String (List Row))
    (chatResult : Except String String)
    (h : strContains (pyLower body_text) "list" = true) :
    handle_grocery_request body_text user_id db none
        = (if (db.filter (fun r => r.category == "Grocery")).isEmpty then
             .ok ("No grocery items found for anyone.", db, [Eff.selectCat "Grocery"])
           else
             .ok (String.intercalate "\n"
                    ("All grocery items (all users):"
                      :: numberedNamesUsers 1 (db.filter (fun r => r.category == "Grocery"))),
                  db, [Eff.selectCat "Grocery"]))
      ∧ handle_restaurant_request body_text user_id db oracle rpcResult chatResult
          = ((if (db.filter (fun r => r.category == "restaurant")).isEmpty then
                "No restaurant items found."
              else
                String.intercalate "\n"
                  ("All restaurant items:"
                    :: numberedNames 1 (db.filter (fun r => r.category == "restaurant")))),
             db, [Eff.selectCat "restaurant"]) := by
  constructor
  · simp [handle_grocery_request, h]
  · simp [handle_restaurant_request, h]

/-- C10 witness: the theorem applied to `remove grocery list` and
`remove restaurant list` style bodies on the empty store. -/
theorem C10_list_check_runs_first_witness :
    strContains (pyLower "remove grocery list") "list" = true
      ∧ handle_grocery_request "remove grocery list" "+15551234567" [] none
          = (if (([] : List Row).filter (fun r => r.category == "Grocery")).isEmpty then
               .ok ("No grocery items found for anyone.", ([] : List Row), [Eff.selectCat "Grocery"])
             else
               .ok (String.intercalate "\n"
                      ("All grocery items (all users):"
                        :: numberedNamesUsers 1 (([] : List Row).filter (fun r => r.category == "Grocery"))),
                    ([] : List Row), [Eff.selectCat "Grocery"])) :=
  ⟨by decide,
    (C10_list_check_runs_first "remove grocery list" "+15551234567" []
      (fun _ => .error "boom") (.ok []) (.ok "irrelevant") (by decide)).1⟩

end ListApp
